import Mathlib

/-!
# Verification of the scribe job pipeline

Shallow embedding of the core of the `scribe` repository (frontend
orchestrator, transcriber queue, downloader, emailer ingestion) together
with proofs about the properties stated in its specification.

Conventions of the embedding:
* Python strings become `String`, Python `in` (substring test) becomes
  `pySubstr`, `str.lower()` becomes `pyLower`.
* Database tables and Python dicts become insertion-ordered lists.
* External collaborators (yt-dlp, the HTTP transcriber service, MD5,
  the mailbox) are abstracted as explicit environment parameters.
* Timestamps become `Nat` ticks.
-/

namespace Scribe

/-- Does `needle` match at the head of `hay`? -/
def charsAtHead : List Char → List Char → Bool
  | [], _ => true
  | _ :: _, [] => false
  | a :: as, b :: bs => a == b && charsAtHead as bs

/-- Does `needle` occur contiguously anywhere in `hay`? -/
def charsInfix (needle : List Char) : List Char → Bool
  | [] => charsAtHead needle []
  | c :: rest => charsAtHead needle (c :: rest) || charsInfix needle rest

/-- Python's `needle in hay` substring test. -/
def pySubstr (needle hay : String) : Bool :=
  charsInfix needle.data hay.data

/-- Python's `str.lower()`; over the ASCII strings involved here this is
per-character lowercasing. -/
def pyLower (s : String) : String :=
  ⟨s.data.map Char.toLower⟩

/-- Python's `a or b` on optional integers: `some 0` is falsy, like `0` in
Python, so it falls through to the second operand. -/
def pyOrNat (a b : Option Nat) : Option Nat :=
  match a with
  | some n => if n ≠ 0 then some n else b
  | none => b

/-- `dict.fromkeys` deduplication: keep the first occurrence of each
element, preserving order. `seen` accumulates the keys already kept. -/
def dedupFirstAux : List String → List String → List String
  | [], _ => []
  | x :: xs, seen =>
      if x ∈ seen then dedupFirstAux xs seen
      else x :: dedupFirstAux xs (x :: seen)

/-- `list(dict.fromkeys(l))`: first-occurrence deduplication. -/
def dedupFirst (l : List String) : List String :=
  dedupFirstAux l []

/-! ## frontend/utils/url_parser.py -/

/-- Character class `[a-zA-Z0-9_-]` of the YouTube video-id regex. -/
def ytIdChar (c : Char) : Bool :=
  c.isAlpha || c.isDigit || c == '_' || c == '-'

/-- Case-insensitive literal match of `pat` (given in lowercase) at the
head of `xs`, as one alternative of an `re.IGNORECASE` search. -/
def startsWithCI (pat : String) (xs : List Char) : Bool :=
  (xs.take pat.length).map Char.toLower == pat.data

/-- Try the regex `(?:youtube\.com/watch\?v=|youtu\.be/)([a-zA-Z0-9_-]{11})`
at the current position: one of the two literal alternatives followed by
exactly 11 id-class characters (the captured group). -/
def tryYtPattern1 (xs : List Char) : Option String :=
  let rest :=
    if startsWithCI "youtube.com/watch?v=" xs then some (xs.drop 20)
    else if startsWithCI "youtu.be/" xs then some (xs.drop 9)
    else none
  match rest with
  | some r =>
      let cand := r.take 11
      if cand.length == 11 && cand.all ytIdChar then some ⟨cand⟩ else none
  | none => none

/-- Try the regex `youtube\.com/embed/([a-zA-Z0-9_-]{11})` at the current
position. -/
def tryYtPattern2 (xs : List Char) : Option String :=
  if startsWithCI "youtube.com/embed/" xs then
    let cand := (xs.drop 18).take 11
    if cand.length == 11 && cand.all ytIdChar then some ⟨cand⟩ else none
  else none

/-- `re.search`: scan positions left to right, returning the first match. -/
def searchAt (try1 : List Char → Option String) : List Char → Option String
  | [] => try1 []
  | c :: rest =>
      match try1 (c :: rest) with
      | some v => some v
      | none => searchAt try1 rest

/-- `extract_youtube_id`: search the first pattern over the whole URL,
then the second. -/
def extract_youtube_id (url : String) : Option String :=
  match searchAt tryYtPattern1 url.data with
  | some v => some v
  | none => searchAt tryYtPattern2 url.data

/-- Try the regex `[?&]i=(\d+)` at the current position (case-insensitive,
so `I=` also matches); the captured group is the maximal digit run. -/
def tryAppleEpisode (xs : List Char) : Option String :=
  match xs with
  | c :: rest =>
      if (c == '?' || c == '&') && startsWithCI "i=" rest then
        let ds := (rest.drop 2).takeWhile Char.isDigit
        if ds.length ≠ 0 then some ⟨ds⟩ else none
      else none
  | [] => none

/-- Try the regex `/id(\d+)` at the current position (case-insensitive). -/
def tryAppleShow (xs : List Char) : Option String :=
  if startsWithCI "/id" xs then
    let ds := (xs.drop 3).takeWhile Char.isDigit
    if ds.length ≠ 0 then some ⟨ds⟩ else none
  else none

/-- `extract_apple_podcast_id`: episode id `[?&]i=(\d+)` first, falling
back to the show id `/id(\d+)`. -/
def extract_apple_podcast_id (url : String) : Option String :=
  match searchAt tryAppleEpisode url.data with
  | some v => some v
  | none => searchAt tryAppleShow url.data

/-- `generate_id`. The MD5 digest used for direct-audio URLs is an external
library call, abstracted as the parameter `md5hex12`
(`hashlib.md5(url.encode()).hexdigest()[:12]`). -/
def generate_id (md5hex12 : String → String) (url : String) : String :=
  let urlLower := pyLower url
  if pySubstr "youtube.com" urlLower || pySubstr "youtu.be" urlLower then
    match extract_youtube_id url with
    | some vid => "youtube_" ++ vid
    | none => "direct_audio_" ++ md5hex12 url
  else if pySubstr "podcasts.apple.com" urlLower then
    match extract_apple_podcast_id url with
    | some pid => "apple_podcasts_" ++ pid
    | none => "direct_audio_" ++ md5hex12 url
  else
    "direct_audio_" ++ md5hex12 url

/-- `SourceType` enum. -/
inductive SourceType
  | youtube
  | apple_podcasts
  | direct_audio
deriving DecidableEq, Repr

/-- `URLInfo` named tuple (the optional `video_id`/`podcast_id` fields are
carried by `id` and omitted). -/
structure URLInfo where
  source_type : SourceType
  original_url : String
  id : String
deriving DecidableEq, Repr

/-- Scheme characters accepted by `urllib.parse`: letters, digits, `+`,
`-`, `.` (the first character must be a letter). -/
def schemeChar (c : Char) : Bool :=
  c.isAlpha || c.isDigit || c == '+' || c == '-' || c == '.'

/-- `urllib.parse.urlparse(url)`: `scheme` is nonempty iff a `:` is
preceded by a letter-led run of scheme characters; `netloc` is nonempty
iff what follows the scheme starts with `//` and has at least one
character before the next `/`, `?` or `#`. This models exactly the
`parsed.scheme and parsed.netloc` validity test of `parse_url`. -/
def urlHasSchemeAndNetloc (url : String) : Bool :=
  match url.data with
  | [] => false
  | c :: rest =>
      let run := (c :: rest).takeWhile schemeChar
      let after := (c :: rest).drop run.length
      c.isAlpha && run.length ≠ 0 &&
      (match after with
       | ':' :: r2 =>
           (match r2 with
            | '/' :: '/' :: r3 =>
                let netloc := r3.takeWhile
                  (fun ch => ch ≠ '/' && ch ≠ '?' && ch ≠ '#')
                netloc.length ≠ 0
            | _ => false)
       | _ => false)

/-- `parse_url`: raises `ValueError` (modelled as `.error`) on an invalid
URL or an unextractable platform id. -/
def parse_url (md5hex12 : String → String) (url : String) :
    Except String URLInfo :=
  if ¬ urlHasSchemeAndNetloc url then
    .error ("Invalid URL: " ++ url)
  else
    let urlLower := pyLower url
    if pySubstr "youtube.com" urlLower || pySubstr "youtu.be" urlLower then
      match extract_youtube_id url with
      | none => .error ("Could not extract YouTube video ID from: " ++ url)
      | some vid =>
          .ok ⟨SourceType.youtube, url, "youtube_" ++ vid⟩
    else if pySubstr "podcasts.apple.com" urlLower then
      match extract_apple_podcast_id url with
      | none => .error ("Could not extract Apple Podcasts ID from: " ++ url)
      | some pid =>
          .ok ⟨SourceType.apple_podcasts, url, "apple_podcasts_" ++ pid⟩
    else
      .ok ⟨SourceType.direct_audio, url, "direct_audio_" ++ md5hex12 url⟩

/-! ## frontend/services/orchestrator.py and frontend/api/routes.py -/

/-- Job status values written by the orchestrator
(`pending → downloading → transcribing → completed`, or `failed`). -/
inductive JStatus
  | pending
  | downloading
  | transcribing
  | completed
  | failed
deriving DecidableEq, Repr

/-- A row of the `transcriptions` table (the fields the core claims are
about; metadata/result columns are tracked as opaque flags by `DbOp`). -/
structure JobRecord where
  id : String
  source_url : String
  source_type : SourceType
  status : JStatus
  progress : Nat
  error_message : Option String
deriving DecidableEq, Repr

/-- One database write performed during `process_url`.
`updStatus` is `_update_status` (writes status and progress),
`updMetadata` is `_update_metadata` (metadata columns only),
`saveResults` is `_save_results` (result columns only), and
`markFailed` is `_mark_failed` (sets status to `failed` and the error
message; it does not touch progress). -/
inductive DbOp
  | insert (rec : JobRecord)
  | updStatus (id : String) (s : JStatus) (p : Nat)
  | updMetadata (id : String)
  | saveResults (id : String)
  | markFailed (id : String) (err : String)
deriving DecidableEq, Repr

/-- `OrchestrationResult` named tuple. -/
structure OrchestrationResult where
  success : Bool
  transcription_id : Option String
  error : Option String
deriving DecidableEq, Repr

/-- `TranscriptionResult` named tuple of
`frontend/services/transcriber_client.py` (the transcript payload is
abstracted as an opaque flag). -/
structure TResultM where
  success : Bool
  job_id : Option String
  status : Option String
  hasPayload : Bool
  error : Option String
deriving DecidableEq, Repr

/-- Outcome of one external call made by the orchestrator
(`downloader.download` or `transcriber_client.submit_job`),
abstracted to success or a failure message. -/
inductive CallOutcome
  | ok
  | fail (err : String)
deriving DecidableEq, Repr

/-- The external collaborators of one `process_url` run. -/
structure OrchEnv where
  download : CallOutcome
  submit : CallOutcome
  wait : TResultM
deriving DecidableEq, Repr

/-- SQLAlchemy `query.filter_by(...).first()` followed by a mutation:
update the first matching row. -/
def updateFirst (table : List JobRecord) (id : String)
    (f : JobRecord → JobRecord) : List JobRecord :=
  match table with
  | [] => []
  | r :: rs => if r.id == id then f r :: rs else r :: updateFirst rs id f

/-- Apply one `DbOp` to the table. -/
def applyOp (table : List JobRecord) : DbOp → List JobRecord
  | .insert rec => table ++ [rec]
  | .updStatus id s p =>
      updateFirst table id (fun r => { r with status := s, progress := p })
  | .updMetadata _ => table
  | .saveResults _ => table
  | .markFailed id err =>
      updateFirst table id
        (fun r => { r with status := .failed, error_message := some err })

/-- Apply a sequence of `DbOp`s. -/
def applyOps (table : List JobRecord) (ops : List DbOp) : List JobRecord :=
  ops.foldl applyOp table

/-- `Orchestrator.process_url`, returning the `OrchestrationResult` and
the ordered database writes of the run. The duplicate check is
`session.query(Transcription).filter_by(source_url=url).first()`:
an exact comparison against the submitted `source_url` string. -/
def process_url (md5hex12 : String → String) (env : OrchEnv)
    (table : List JobRecord) (url : String) :
    OrchestrationResult × List DbOp :=
  match parse_url md5hex12 url with
  | .error e => (⟨false, none, some e⟩, [])
  | .ok info =>
    let tid := info.id
    match table.find? (fun r => r.source_url == url) with
    | some _ => (⟨false, some tid, some "URL already transcribed"⟩, [])
    | none =>
      let ops0 : List DbOp :=
        [.insert ⟨tid, url, info.source_type, .pending, 0, none⟩,
         .updStatus tid .downloading 10]
      match env.download with
      | .fail err =>
          (⟨false, some tid, some err⟩,
           ops0 ++ [.markFailed tid ("Download failed: " ++ err)])
      | .ok =>
        let ops1 := ops0 ++ [.updMetadata tid, .updStatus tid .transcribing 50]
        match env.submit with
        | .fail err =>
            (⟨false, some tid, some err⟩,
             ops1 ++ [.markFailed tid ("Transcription failed: " ++ err)])
        | .ok =>
          if env.wait.success == false || env.wait.status == some "failed" then
            let err := env.wait.error.getD "Transcription failed"
            (⟨false, some tid, some err⟩, ops1 ++ [.markFailed tid err])
          else
            (⟨true, some tid, none⟩,
             ops1 ++ [.updStatus tid .completed 90, .saveResults tid,
                      .updStatus tid .completed 100])

/-- Response of the `POST /transcribe` route of
`frontend/api/routes.py`. -/
inductive RouteResp
  | conflict409 (detail : String) (existing_id : String)
  | badRequest400 (detail : String)
  | accepted202 (id : String)
deriving DecidableEq, Repr

/-- `transcribe_url` route: parse, duplicate check, create the pending
record, schedule background processing. A duplicate yields HTTP 409 with
the existing record's id; an invalid URL yields HTTP 400. -/
def transcribe_url (md5hex12 : String → String)
    (table : List JobRecord) (url : String) : RouteResp × List DbOp :=
  match parse_url md5hex12 url with
  | .error e => (.badRequest400 e, [])
  | .ok info =>
    match table.find? (fun r => r.source_url == url) with
    | some existing =>
        (.conflict409 "This URL has already been transcribed" existing.id, [])
    | none =>
        (.accepted202 info.id,
         [.insert ⟨info.id, url, info.source_type, .pending, 0, none⟩])

/-- The successive `(status, progress)` values taken by the job's row
over the writes of one run, starting from the freshly inserted record.
Writes that do not touch status or progress repeat the previous value. -/
def stepState (st : JStatus × Nat) : DbOp → JStatus × Nat
  | .insert rec => (rec.status, rec.progress)
  | .updStatus _ s p => (s, p)
  | .updMetadata _ => st
  | .saveResults _ => st
  | .markFailed _ _ => (.failed, st.2)

/-- Trace of `(status, progress)` states of one `process_url` run. -/
def statusTrace (ops : List DbOp) : List (JStatus × Nat) :=
  ops.scanl stepState (JStatus.pending, 0)

/-- Terminal statuses. -/
def isTerminal : JStatus → Bool
  | .completed => true
  | .failed => true
  | _ => false

/-- Rank of the forward pipeline order
`pending → downloading → transcribing → completed`. -/
def statusRank : JStatus → Nat
  | .pending => 0
  | .downloading => 1
  | .transcribing => 2
  | .completed => 3
  | .failed => 4

/-- One admissible step of the job state: the status is unchanged, or a
non-terminal status moves strictly forward (or to `failed`); progress
never decreases. -/
def monotoneStep (a b : JStatus × Nat) : Prop :=
  (a.1 = b.1 ∨ (isTerminal a.1 = false ∧
    (b.1 = .failed ∨ statusRank a.1 < statusRank b.1))) ∧ a.2 ≤ b.2

instance : DecidableRel monotoneStep := fun a b =>
  inferInstanceAs (Decidable ((a.1 = b.1 ∨ (isTerminal a.1 = false ∧
    (b.1 = .failed ∨ statusRank a.1 < statusRank b.1))) ∧ a.2 ≤ b.2))

/-! ## transcriber/core/queue.py -/

/-- `JobStatus` enum of the transcription queue. -/
inductive QStatus
  | queued
  | processing
  | completed
  | failed
deriving DecidableEq, Repr

/-- `TranscriptionJob` pydantic model (the transcript payload is
abstracted as an opaque flag). -/
structure TranscriptionJob where
  job_id : String
  audio_path : String
  model : String
  language : Option String
  task : String
  status : QStatus
  progress : Nat
  created_at : Nat
  started_at : Option Nat
  completed_at : Option Nat
  hasResult : Bool
  error : Option String
deriving DecidableEq, Repr

/-- State of a `JobQueue`: `jobs` is the insertion-ordered dict
`self.jobs` (keys are unique), `queue` the ids in the `asyncio.Queue`,
`maxsize` its capacity (`settings.queue_size`). -/
structure JobQueueState where
  jobs : List TranscriptionJob
  queue : List String
  maxsize : Nat
deriving DecidableEq, Repr

/-- Outcome of `JobQueue.submit_job`. `await self.queue.put(job_id)`
never raises `asyncio.QueueFull`: when the queue is full the coroutine
suspends until a slot frees (only `put_nowait` raises), so the
`except asyncio.QueueFull` branch of the source is unreachable.
`blockedAwaitingSpace` is the suspended state, in which the new job has
already been added to `self.jobs`. -/
inductive SubmitOutcome
  | returned (jobId : String) (st : JobQueueState)
  | blockedAwaitingSpace (jobId : String) (st : JobQueueState)
deriving DecidableEq, Repr

/-- `JobQueue.submit_job`. `newId` stands for the fresh `uuid.uuid4()`
and `now` for `datetime.utcnow()`; `modelName` defaults to
`settings.whisper_model` at the call site. -/
def submit_job (st : JobQueueState) (newId : String) (audio_path : String)
    (modelName : String) (language : Option String) (task : String)
    (now : Nat) : SubmitOutcome :=
  let job : TranscriptionJob :=
    ⟨newId, audio_path, modelName, language, task,
     .queued, 0, now, none, none, false, none⟩
  let jobs1 := st.jobs ++ [job]
  if st.queue.length < st.maxsize then
    .returned newId { st with jobs := jobs1, queue := st.queue ++ [newId] }
  else
    .blockedAwaitingSpace newId { st with jobs := jobs1 }

/-- `jobs.get(job_id)`: dict lookup (keys are unique, so the first match
is the entry). -/
def getJob (st : JobQueueState) (job_id : String) : Option TranscriptionJob :=
  st.jobs.find? (fun j => j.job_id == job_id)

/-- The loop body of `get_queue_position`: count the queued jobs created
strictly earlier than `job`. -/
def countEarlierQueued (jobs : List TranscriptionJob)
    (job : TranscriptionJob) : Nat :=
  jobs.foldl
    (fun position j =>
      if j.status == .queued && j.created_at < job.created_at then
        position + 1
      else position) 0

/-- `JobQueue.get_queue_position`. -/
def get_queue_position (st : JobQueueState) (job_id : String) : Option Nat :=
  match getJob st job_id with
  | none => none
  | some job =>
      if job.status != .queued then none
      else some (countEarlierQueued st.jobs job)

/-- Modelled from the spec: `queuePosition(jobId)` returns the count of
still-queued entries submitted strictly earlier, or `None` once the
entry does not exist or has left the queued state. Stated independently
of the loop in the source, to be compared with `get_queue_position`. -/
def queuePositionSpec (st : JobQueueState) (job_id : String) : Option Nat :=
  match getJob st job_id with
  | none => none
  | some job =>
      if job.status = .queued then
        some (st.jobs.countP
          (fun j => j.status == .queued && j.created_at < job.created_at))
      else none

/-! ## frontend/services/transcriber_client.py -/

/-- `TranscriberClient.wait_for_completion`. `check n` is the
`TranscriptionResult` of the `n`-th `check_status` HTTP poll. The
`while elapsed < max_wait` loop is modelled with a fuel argument; for
`poll_interval ≥ 1` the loop performs at most `max_wait` iterations, so
the initial fuel `max_wait + 1` is never exhausted (a zero interval
makes the source loop forever). Besides the result, the final values of
the `elapsed` counter and the number of polls performed are returned. -/
def optStatusStr : Option String → String
  | some s => s
  | none => "None"

/-- The timeout message of `wait_for_completion`:
`f"Job {job_id} did not complete within {max_wait} seconds"`. -/
def timeoutMsg (job_id : String) (max_wait : Nat) : String :=
  "Job " ++ job_id ++ " did not complete within " ++ toString max_wait
    ++ " seconds"

/-- The `TranscriptionResult` returned when the poll loop times out. -/
def timeoutResult (job_id : String) (max_wait : Nat) : TResultM :=
  ⟨false, some job_id, none, false, some (timeoutMsg job_id max_wait)⟩

def waitLoop (check : Nat → TResultM) (job_id : String)
    (poll_interval max_wait : Nat) :
    Nat → Nat → Nat → TResultM × Nat × Nat
  | 0, elapsed, polls => (timeoutResult job_id max_wait, elapsed, polls)
  | fuel + 1, elapsed, polls =>
    if elapsed < max_wait then
      let r := check polls
      if r.success == false then (r, elapsed, polls + 1)
      else if r.status == some "completed" then (r, elapsed, polls + 1)
      else if r.status == some "failed" then
        (⟨false, some job_id, some "failed", false,
          some ("Job " ++ job_id ++ " failed")⟩, elapsed, polls + 1)
      else if r.status == some "pending" || r.status == some "processing"
          || r.status == some "queued" then
        waitLoop check job_id poll_interval max_wait fuel
          (elapsed + poll_interval) (polls + 1)
      else
        (⟨false, some job_id, r.status, false,
          some ("Unknown job status: " ++ optStatusStr r.status)⟩,
         elapsed, polls + 1)
    else
      (timeoutResult job_id max_wait, elapsed, polls)

/-- `wait_for_completion(job_id, poll_interval, max_wait)` (the source
defaults are `poll_interval=5`, `max_wait=600`). -/
def wait_for_completion (check : Nat → TResultM) (job_id : String)
    (poll_interval max_wait : Nat) : TResultM × Nat × Nat :=
  waitLoop check job_id poll_interval max_wait (max_wait + 1) 0 0

/-! ## frontend/services/downloader.py

Error messages are modelled without the interpolated `"{:.1f}"` size
figures; their fixed text follows the source. -/

/-- Metadata extracted by `_extract_metadata` from the yt-dlp info dict. -/
structure Metadata where
  title : Option String
  channel : Option String
  duration_seconds : Option Nat
  upload_date : Option String
  thumbnail_url : Option String
  description : Option String
  format : Option String
deriving DecidableEq, Repr

/-- The yt-dlp info dict: declared size estimates plus metadata. -/
structure ExtractInfo where
  filesize : Option Nat
  filesize_approx : Option Nat
  meta : Metadata
deriving DecidableEq, Repr

/-- Outcome of one `ydl.extract_info` call. -/
inductive ExtractOutcome
  | ok (info : ExtractInfo)
  | raises (msg : String)
deriving DecidableEq, Repr

/-- External collaborators of one `Downloader.download` call:
the two primary `extract_info` calls, the file found on disk by
`_find_audio_file` (path and size in bytes), and on the fallback path
the scraper result, the fallback `extract_info` call and the fallback
file. -/
structure DlEnv where
  infoCall : ExtractOutcome
  downloadCall : ExtractOutcome
  foundFile : Option (String × Nat)
  scrapedAudioUrl : Option String
  fallbackCall : ExtractOutcome
  fallbackFoundFile : Option (String × Nat)
deriving DecidableEq, Repr

/-- `DownloadResult` named tuple. -/
structure DownloadResult where
  success : Bool
  audio_path : Option String
  metadata : Option Metadata
  error : Option String
deriving DecidableEq, Repr

/-- Python truthiness of an optional integer (`if filesize:`). -/
def pyTruthyNat : Option Nat → Bool
  | some n => n ≠ 0
  | none => false

/-- `size_mb > settings.max_audio_size_mb` where
`size_mb = bytes / (1024 * 1024)`: stated equivalently over the integers
as `bytes > max_mb * 1048576` (for exact arithmetic,
`b / 1048576 > m ↔ b > m * 1048576`). -/
def oversize (maxMb bytes : Nat) : Bool :=
  bytes > maxMb * 1048576

/-- `Downloader._is_apple_podcasts_url`. -/
def is_apple_podcasts_url (url : String) : Bool :=
  pySubstr "podcasts.apple.com" (pyLower url)

/-- `f"Downloaded audio file not found for {transcription_id}"`. -/
def notFoundMsg (tid : String) : String :=
  "Downloaded audio file not found for " ++ tid

/-- `Downloader._download_apple_podcasts_fallback`. Returns the
`DownloadResult` and whether the downloaded file was deleted
(`audio_path.unlink()`). -/
def download_apple_podcasts_fallback (maxMb : Nat) (env : DlEnv)
    (tid : String) : DownloadResult × Bool :=
  match env.scrapedAudioUrl with
  | none =>
      (⟨false, none, none,
        some "Could not extract audio URL from Apple Podcasts page"⟩, false)
  | some _ =>
    match env.fallbackCall with
    | .raises msg =>
        (⟨false, none, none, some ("Fallback download failed: " ++ msg)⟩,
         false)
    | .ok info =>
      match env.fallbackFoundFile with
      | none => (⟨false, none, none, some (notFoundMsg tid)⟩, false)
      | some (path, bytes) =>
          if oversize maxMb bytes then
            (⟨false, none, none, some "File size exceeds maximum"⟩, true)
          else
            (⟨true, some path, some info.meta, none⟩, false)

/-- The `except Exception` handler of `Downloader.download`: scrape-based
fallback only for an Apple Podcasts URL whose yt-dlp error contains
`"Unable to extract"`; every other exception is wrapped as
`f"Download failed: {e}"`. The final component records whether the
fallback path was entered. -/
def downloadExceptHandler (maxMb : Nat) (env : DlEnv) (url tid : String)
    (msg : String) : DownloadResult × Bool × Bool :=
  if is_apple_podcasts_url url && pySubstr "Unable to extract" msg then
    let r := download_apple_podcasts_fallback maxMb env tid
    (r.1, r.2, true)
  else
    (⟨false, none, none, some ("Download failed: " ++ msg)⟩, false, false)

/-- `Downloader.download` for `maxMb = settings.max_audio_size_mb`.
Returns `(result, deleted, usedFallback)`: the `DownloadResult`, whether
a downloaded file was deleted for exceeding the maximum size, and
whether the Apple Podcasts fallback path was entered. -/
def download (maxMb : Nat) (env : DlEnv) (url tid : String) :
    DownloadResult × Bool × Bool :=
  match env.infoCall with
  | .raises msg => downloadExceptHandler maxMb env url tid msg
  | .ok info =>
    let filesize := pyOrNat info.filesize info.filesize_approx
    if pyTruthyNat filesize && oversize maxMb (filesize.getD 0) then
      (⟨false, none, none,
        some "File size exceeds maximum allowed size"⟩, false, false)
    else
      match env.downloadCall with
      | .raises msg => downloadExceptHandler maxMb env url tid msg
      | .ok info2 =>
        match env.foundFile with
        | none => (⟨false, none, none, some (notFoundMsg tid)⟩, false, false)
        | some (path, bytes) =>
            if oversize maxMb bytes then
              (⟨false, none, none,
                some "Downloaded file size exceeds maximum allowed size"⟩,
               true, false)
            else
              (⟨true, some path, some info2.meta, none⟩, false, false)

/-- The exception, if any, escaping the primary `try` block of
`Downloader.download` (either `extract_info` call may raise; a failed
pre-transfer size check returns instead of raising). -/
def primaryException (maxMb : Nat) (env : DlEnv) : Option String :=
  match env.infoCall with
  | .raises msg => some msg
  | .ok info =>
    let filesize := pyOrNat info.filesize info.filesize_approx
    if pyTruthyNat filesize && oversize maxMb (filesize.getD 0) then none
    else
      match env.downloadCall with
      | .raises msg => some msg
      | .ok _ => none

/-! ## emailer -/

/-- Python's `a or b` on an optional string (empty strings are falsy). -/
def pyOrStr (a : Option String) (b : String) : String :=
  match a with
  | some s => if s ≠ "" then s else b
  | none => b

/-- `JobResult` dataclass of `emailer/job_processor.py`. -/
structure JobResult where
  url : String
  success : Bool
  title : Option String
  summary : Option String
  transcript : Option String
  duration_seconds : Option Nat
  error : Option String
  creator_notes : Option String
deriving DecidableEq, Repr

/-- Outcome of `EpisodeSourceProcessor._try_url` for one URL, before the
`url` field is filled in (the method catches every exception and returns
a failure `JobResult`). -/
inductive TryOutcome
  | succeeds (title : Option String) (summary : Option String)
      (transcript : Option String) (duration_seconds : Option Nat)
      (creator_notes : Option String)
  | fails (err : Option String)
deriving DecidableEq, Repr

/-- The `JobResult` that `_try_url url` produces for a given outcome. -/
def tryResultFor (url : String) : TryOutcome → JobResult
  | .succeeds t s tr d n => ⟨url, true, t, s, tr, d, none, n⟩
  | .fails e => ⟨url, false, none, none, none, none, e, none⟩

/-- Is the outcome a success? -/
def TryOutcome.isSuccess : TryOutcome → Bool
  | .succeeds _ _ _ _ _ => true
  | .fails _ => false

/-- The candidate loop of `EpisodeSourceProcessor.process_email`:
try each URL in order, return on the first success, remember the last
error otherwise. `firstUrl` is `urls[0]`, used for the all-failed
result. Returns the `JobResult` and the list of URLs attempted. -/
def episodeTryLoop (tryf : String → TryOutcome) (firstUrl : String) :
    List String → Option String → JobResult × List String
  | [], lastError =>
      (⟨firstUrl, false, none, none, none, none,
        some (pyOrStr lastError "All URLs failed"), none⟩, [])
  | u :: rest, _ =>
      let r := tryResultFor u (tryf u)
      if r.success then (r, [u])
      else
        let (res, attempted) := episodeTryLoop tryf firstUrl rest r.error
        (res, u :: attempted)

/-- `EpisodeSourceProcessor.process_email`, applied to the deduplicated
candidate list. -/
def process_email_es (tryf : String → TryOutcome) (urls : List String) :
    JobResult × List String :=
  match urls with
  | [] =>
      (⟨"", false, none, none, none, none,
        some "No Apple Podcasts or YouTube URL found in email", none⟩, [])
  | u :: rest => episodeTryLoop tryf u (u :: rest) none

/-- The URL loop of `EmailerService._process_email` (`emailer/main.py`):
every candidate is processed through `JobProcessor.process_url` and a
result email is sent per candidate; the loop never stops early. Returns
the results in candidate order, one per candidate. -/
def process_email_main (procf : String → JobResult) :
    List String → List JobResult
  | [] => []
  | u :: rest => procf u :: process_email_main procf rest

/-! ### emailer/url_extractor.py and the candidate list of main.py

`extract_urls` accumulates its regex/anchor matches in a Python `set`
and returns `list(urls)`. Python specifies no iteration order for a
`set` of strings (string hashes are randomized per process), so the
embedding treats any permutation of the distinct matches as an
admissible return value. -/

/-- `out` is an admissible return value of `extract_urls` whose
transcribable matches, in the order the body scan first encountered
them, are `found`. -/
def extractUrlsAdmissible (found out : List String) : Prop :=
  out.Perm (dedupFirst found)

/-- `EmailerService._process_email` combines the two scans with
`urls.extend(text_urls); urls.extend(html_urls);
urls = list(dict.fromkeys(urls))`. -/
def candidateList (outText outHtml : List String) : List String :=
  dedupFirst (outText ++ outHtml)

/-! ## Claims -/

/-- C1: a second submission of the same `source_url` through
`Orchestrator.process_url` never creates a second independent Job: the
existing record is detected, the run performs no database writes (the
table is unchanged), and the existing job's id is returned to the
caller; at the API boundary (`POST /transcribe`) the duplicate is
answered with a 409 conflict carrying the existing id rather than
re-processed. -/
theorem C1_duplicate_url_short_circuits
    (md5hex12 : String → String) (env : OrchEnv) (table : List JobRecord)
    (url : String) (ex : JobRecord) (info : URLInfo)
    (hparse : parse_url md5hex12 url = .ok info)
    (hfind : table.find? (fun r => r.source_url == url) = some ex)
    (hid : ex.id = info.id) :
    process_url md5hex12 env table url =
      (⟨false, some ex.id, some "URL already transcribed"⟩, []) ∧
    applyOps table (process_url md5hex12 env table url).2 = table ∧
    transcribe_url md5hex12 table url =
      (.conflict409 "This URL has already been transcribed" ex.id, []) := by
  unfold process_url transcribe_url
  rw [hparse, hfind]
  refine ⟨?_, rfl, rfl⟩
  rw [hid]

def c1Md5 : String → String := fun _ => "0123456789ab"

def c1Url : String := "https://youtube.com/watch?v=dQw4w9WgXcQ"

def c1Rec : JobRecord :=
  ⟨"youtube_dQw4w9WgXcQ", c1Url, SourceType.youtube, .completed, 100, none⟩

def c1Env : OrchEnv := ⟨.ok, .ok, ⟨true, none, some "completed", true, none⟩⟩

/-- Witness for C1: a concrete duplicate submission. -/
theorem C1_duplicate_url_short_circuits_witness :
    process_url c1Md5 c1Env [c1Rec] c1Url =
      (⟨false, some "youtube_dQw4w9WgXcQ", some "URL already transcribed"⟩,
       []) ∧
    applyOps [c1Rec] (process_url c1Md5 c1Env [c1Rec] c1Url).2 = [c1Rec] ∧
    transcribe_url c1Md5 [c1Rec] c1Url =
      (.conflict409 "This URL has already been transcribed"
        "youtube_dQw4w9WgXcQ", []) :=
  C1_duplicate_url_short_circuits c1Md5 c1Env [c1Rec] c1Url c1Rec
    ⟨SourceType.youtube, c1Url, "youtube_dQw4w9WgXcQ"⟩ rfl rfl rfl

def c10Url1 : String := "https://youtube.com/watch?v=dQw4w9WgXcQ"

def c10Url2 : String := "https://youtu.be/dQw4w9WgXcQ"

def c10Rec : JobRecord :=
  ⟨"youtube_dQw4w9WgXcQ", c10Url1, SourceType.youtube, .completed, 100, none⟩

/-- When the duplicate lookup misses, a `process_url` run begins by
inserting a fresh `pending` record, whatever the collaborators do. -/
theorem process_url_ops_head (md5hex12 : String → String) (env : OrchEnv)
    (table : List JobRecord) (url : String) (info : URLInfo)
    (hp : parse_url md5hex12 url = .ok info)
    (hf : table.find? (fun r => r.source_url == url) = none) :
    (process_url md5hex12 env table url).2.head? =
      some (.insert ⟨info.id, url, info.source_type, .pending, 0, none⟩) := by
  unfold process_url
  rw [hp, hf]
  rcases env with ⟨dl, sub, w⟩
  cases dl with
  | fail e => cases sub <;> rfl
  | ok =>
      cases sub with
      | fail e => rfl
      | ok =>
          rcases Bool.eq_false_or_eq_true
            (w.success == false || w.status == some "failed") with hw | hw <;>
            simp only [hw] <;> rfl

/-- C10: duplicate detection in `process_url` compares only the exact
`source_url` string. The `youtube.com/watch?v=` and `youtu.be/` forms of
one video are distinct strings deriving the same id, yet after a
successful submission of the first, submitting the second is not
short-circuited: the duplicate lookup misses and the run starts by
inserting a fresh record (with the same derived id). -/
theorem C10_duplicate_check_exact_string
    (md5hex12 : String → String) (env : OrchEnv) :
    c10Url1 ≠ c10Url2 ∧
    generate_id md5hex12 c10Url1 = generate_id md5hex12 c10Url2 ∧
    [c10Rec].find? (fun r => r.source_url == c10Url2) = none ∧
    (process_url md5hex12 env [c10Rec] c10Url2).2.head? =
      some (.insert
        ⟨"youtube_dQw4w9WgXcQ", c10Url2, SourceType.youtube,
         .pending, 0, none⟩) := by
  refine ⟨by decide, rfl, rfl, ?_⟩
  exact process_url_ops_head md5hex12 env [c10Rec] c10Url2
    ⟨SourceType.youtube, c10Url2, "youtube_dQw4w9WgXcQ"⟩ rfl rfl

def c2Job1 : TranscriptionJob :=
  ⟨"job-1", "a.m4a", "medium", none, "transcribe",
   .queued, 0, 0, none, none, false, none⟩

def c2Job2 : TranscriptionJob :=
  ⟨"job-2", "b.m4a", "medium", none, "transcribe",
   .queued, 0, 1, none, none, false, none⟩

/-- A queue at capacity: `maxsize = 1` with one queued entry. -/
def c2Full : JobQueueState := ⟨[c2Job1], ["job-1"], 1⟩

/-- C2 (code bug): at capacity, `JobQueue.submit_job` does not raise
`asyncio.QueueFull` as its docstring and the 503 handler of the route
expect — `await self.queue.put(job_id)` suspends until a slot frees
(only `put_nowait` raises), so the submission blocks, and while blocked
the new job has already been added to the jobs table (the table is not
unchanged). -/
theorem C2_submit_at_capacity_blocks_and_mutates :
    submit_job c2Full "job-2" "b.m4a" "medium" none "transcribe" 1 =
      .blockedAwaitingSpace "job-2" ⟨[c2Job1, c2Job2], ["job-1"], 1⟩ ∧
    [c2Job1, c2Job2] ≠ c2Full.jobs :=
  ⟨rfl, by decide⟩

/-- The counting loop of `get_queue_position` equals `countP`. -/
theorem foldl_position_eq_countP (p : TranscriptionJob → Bool) :
    ∀ (l : List TranscriptionJob) (n : Nat),
      l.foldl (fun position j => if p j then position + 1 else position) n =
        n + l.countP p
  | [], n => by simp
  | j :: l, n => by
      by_cases h : p j
      all_goals simp [List.countP_cons, h, foldl_position_eq_countP p l]
      all_goals omega

/-- C4: `get_queue_position` returns exactly the count of entries still
queued that were submitted strictly earlier, and `none` whenever the job
does not exist or has left the queued state. -/
theorem C4_queue_position_characterisation
    (st : JobQueueState) (job_id : String) :
    get_queue_position st job_id = queuePositionSpec st job_id := by
  unfold get_queue_position queuePositionSpec
  cases h : getJob st job_id with
  | none => rfl
  | some job =>
      have hc : countEarlierQueued st.jobs job =
          st.jobs.countP
            (fun j => j.status == .queued && j.created_at < job.created_at) := by
        unfold countEarlierQueued
        rw [foldl_position_eq_countP]
        omega
      by_cases hq : job.status = .queued
      · simp [hq, hc]
      · simp [hq, bne_iff_ne]

/-- C3: over the sequence of status/progress updates performed during one
`process_url` run — whatever the downloader, the submission and the poll
loop return — the job state is monotonic: the status never moves
backward along `pending → downloading → transcribing → completed`, once
`completed` or `failed` is written no later write changes the status,
and progress never decreases. -/
theorem C3_status_monotonic (md5hex12 : String → String) (env : OrchEnv)
    (table : List JobRecord) (url : String) :
    List.Chain' monotoneStep
      (statusTrace (process_url md5hex12 env table url).2) := by
  unfold process_url
  rcases env with ⟨dl, sub, w⟩
  cases hp : parse_url md5hex12 url with
  | error e =>
      exact (by simp [List.chain'_cons, monotoneStep, isTerminal, statusRank] : List.Chain' monotoneStep [(JStatus.pending, 0)])
  | ok info =>
      cases hf : table.find? (fun r => r.source_url == url) with
      | some ex =>
          exact (by simp [List.chain'_cons, monotoneStep, isTerminal, statusRank] : List.Chain' monotoneStep [(JStatus.pending, 0)])
      | none =>
          cases dl with
          | fail e =>
              exact (by simp [List.chain'_cons, monotoneStep, isTerminal, statusRank] : List.Chain' monotoneStep
                [(JStatus.pending, 0), (JStatus.pending, 0),
                 (JStatus.downloading, 10), (JStatus.failed, 10)])
          | ok =>
              cases sub with
              | fail e =>
                  exact (by simp [List.chain'_cons, monotoneStep, isTerminal, statusRank] : List.Chain' monotoneStep
                    [(JStatus.pending, 0), (JStatus.pending, 0),
                     (JStatus.downloading, 10), (JStatus.downloading, 10),
                     (JStatus.transcribing, 50), (JStatus.failed, 50)])
              | ok =>
                  rcases Bool.eq_false_or_eq_true
                    (w.success == false || w.status == some "failed")
                    with hw | hw <;> simp only [hw]
                  · exact (by simp [List.chain'_cons, monotoneStep,
                        isTerminal, statusRank] : List.Chain' monotoneStep
                      [(JStatus.pending, 0), (JStatus.pending, 0),
                       (JStatus.downloading, 10), (JStatus.downloading, 10),
                       (JStatus.transcribing, 50), (JStatus.failed, 50)])
                  · exact (by simp [List.chain'_cons, monotoneStep,
                        isTerminal, statusRank] : List.Chain' monotoneStep
                      [(JStatus.pending, 0), (JStatus.pending, 0),
                       (JStatus.downloading, 10), (JStatus.downloading, 10),
                       (JStatus.transcribing, 50), (JStatus.completed, 90),
                       (JStatus.completed, 90), (JStatus.completed, 100)])

/-- C5: on either download path, whenever the on-disk file measured
after transfer exceeds the configured maximum — whatever pre-transfer
estimate was or was not available — the file is deleted and a failure
result is returned. -/
theorem C5_oversized_download_deleted (maxMb : Nat) (env : DlEnv)
    (url tid : String) :
    (∀ info info2 path bytes,
      env.infoCall = .ok info →
      (pyTruthyNat (pyOrNat info.filesize info.filesize_approx) &&
        oversize maxMb
          ((pyOrNat info.filesize info.filesize_approx).getD 0)) = false →
      env.downloadCall = .ok info2 →
      env.foundFile = some (path, bytes) →
      oversize maxMb bytes = true →
      download maxMb env url tid =
        (⟨false, none, none,
          some "Downloaded file size exceeds maximum allowed size"⟩,
         true, false)) ∧
    (∀ audioUrl info path bytes,
      env.scrapedAudioUrl = some audioUrl →
      env.fallbackCall = .ok info →
      env.fallbackFoundFile = some (path, bytes) →
      oversize maxMb bytes = true →
      download_apple_podcasts_fallback maxMb env tid =
        (⟨false, none, none, some "File size exceeds maximum"⟩, true)) := by
  constructor
  · intro info info2 path bytes h1 h2 h3 h4 h5
    simp [download, h1, h2, h3, h4, h5]
  · intro audioUrl info path bytes h1 h2 h3 h4
    simp [download_apple_podcasts_fallback, h1, h2, h3, h4]

def c5Meta : Metadata := ⟨some "t", some "c", some 60, none, none, none, none⟩

/-- A primary-path environment: no size estimate, 150 MB on disk. -/
def c5EnvPrimary : DlEnv :=
  ⟨.ok ⟨none, none, c5Meta⟩, .ok ⟨none, none, c5Meta⟩,
   some ("x.m4a", 150 * 1048576 + 1), none, .ok ⟨none, none, c5Meta⟩, none⟩

/-- A fallback-path environment: scraped URL found, oversized file. -/
def c5EnvFallback : DlEnv :=
  ⟨.raises "Unable to extract", .raises "Unable to extract", none,
   some "https://cdn.example/audio.mp3", .ok ⟨none, none, c5Meta⟩,
   some ("y.m4a", 150 * 1048576 + 1)⟩

/-- Witness for C5: both paths at a 100 MB limit and a 150 MB file. -/
theorem C5_oversized_download_deleted_witness :
    download 100 c5EnvPrimary "https://example.com/a.mp3" "t1" =
      (⟨false, none, none,
        some "Downloaded file size exceeds maximum allowed size"⟩,
       true, false) ∧
    download_apple_podcasts_fallback 100 c5EnvFallback "t2" =
      (⟨false, none, none, some "File size exceeds maximum"⟩, true) :=
  ⟨(C5_oversized_download_deleted 100 c5EnvPrimary
      "https://example.com/a.mp3" "t1").1
    ⟨none, none, c5Meta⟩ ⟨none, none, c5Meta⟩ "x.m4a" (150 * 1048576 + 1)
    rfl rfl rfl rfl (by decide),
   (C5_oversized_download_deleted 100 c5EnvFallback
      "https://example.com/a.mp3" "t2").2
    "https://cdn.example/audio.mp3" ⟨none, none, c5Meta⟩ "y.m4a"
    (150 * 1048576 + 1) rfl rfl rfl (by decide)⟩

/-- C6: the Downloader enters the page-scraping fallback if and only if
the URL is an Apple Podcasts URL and the primary extractor's exception
message contains the `"Unable to extract"` signature; for any other
exception, or any other source family, the fallback path is never
entered and the original error is returned (wrapped as
`"Download failed: ..."`). -/
theorem C6_fallback_trigger_characterisation (maxMb : Nat) (env : DlEnv)
    (url tid : String) :
    ((download maxMb env url tid).2.2 =
      (match primaryException maxMb env with
       | some m => is_apple_podcasts_url url && pySubstr "Unable to extract" m
       | none => false)) ∧
    (∀ m, primaryException maxMb env = some m →
      (is_apple_podcasts_url url && pySubstr "Unable to extract" m) = false →
      download maxMb env url tid =
        (⟨false, none, none, some ("Download failed: " ++ m)⟩,
         false, false)) := by
  constructor
  · cases hi : env.infoCall with
    | raises msg =>
        cases hb : (is_apple_podcasts_url url &&
            pySubstr "Unable to extract" msg) with
        | true =>
            simp [download, primaryException, downloadExceptHandler, hi, hb]
        | false =>
            simp [download, primaryException, downloadExceptHandler, hi, hb]
    | ok info =>
        cases hpre : (pyTruthyNat (pyOrNat info.filesize info.filesize_approx)
            && oversize maxMb
              ((pyOrNat info.filesize info.filesize_approx).getD 0)) with
        | true =>
            simp [download, primaryException, hi, hpre]
        | false =>
            cases hd : env.downloadCall with
            | raises msg =>
                cases hb : (is_apple_podcasts_url url &&
                    pySubstr "Unable to extract" msg) with
                | true =>
                    simp [download, primaryException, downloadExceptHandler,
                      hi, hpre, hd, hb]
                | false =>
                    simp [download, primaryException, downloadExceptHandler,
                      hi, hpre, hd, hb]
            | ok info2 =>
                rcases hf : env.foundFile with _ | ⟨path, bytes⟩
                · simp [download, primaryException, hi, hpre, hd, hf]
                · cases hs : oversize maxMb bytes with
                  | true =>
                      simp [download, primaryException, hi, hpre, hd, hf, hs]
                  | false =>
                      simp [download, primaryException, hi, hpre, hd, hf, hs]
  · intro m hm hb
    cases hi : env.infoCall with
    | raises msg =>
        have hmsg : msg = m := by
          unfold primaryException at hm
          rw [hi] at hm
          exact Option.some.inj hm
        subst hmsg
        simp [download, downloadExceptHandler, hi, hb]
    | ok info =>
        cases hpre : (pyTruthyNat (pyOrNat info.filesize info.filesize_approx)
            && oversize maxMb
              ((pyOrNat info.filesize info.filesize_approx).getD 0)) with
        | true =>
            exfalso
            unfold primaryException at hm
            rw [hi] at hm
            simp [hpre] at hm
        | false =>
            cases hd : env.downloadCall with
            | raises msg =>
                have hmsg : msg = m := by
                  unfold primaryException at hm
                  rw [hi] at hm
                  simp only [hpre] at hm
                  rw [hd] at hm
                  exact Option.some.inj (by simpa using hm)
                subst hmsg
                simp [download, downloadExceptHandler, hi, hpre, hd, hb]
            | ok info2 =>
                exfalso
                unfold primaryException at hm
                rw [hi] at hm
                simp [hpre, hd] at hm

/-- A primary extractor failure unrelated to the fallback signature. -/
def c6Env : DlEnv :=
  ⟨.raises "HTTP Error 403: Forbidden",
   .ok ⟨none, none, ⟨none, none, none, none, none, none, none⟩⟩, none, none,
   .ok ⟨none, none, ⟨none, none, none, none, none, none, none⟩⟩, none⟩

/-- Witness for C6: a non-Apple URL whose extractor raises an unrelated
error takes no fallback and returns the wrapped original error. -/
theorem C6_fallback_trigger_characterisation_witness :
    download 100 c6Env "https://example.com/a.mp3" "t" =
      (⟨false, none, none,
        some "Download failed: HTTP Error 403: Forbidden"⟩, false, false) :=
  (C6_fallback_trigger_characterisation 100 c6Env
      "https://example.com/a.mp3" "t").2
    "HTTP Error 403: Forbidden" rfl (by decide)

/-- `_try_url` reports success exactly when the outcome is a success. -/
theorem tryResultFor_success (url : String) (o : TryOutcome) :
    (tryResultFor url o).success = o.isSuccess := by
  cases o <;> rfl

/-- The urls of the regular-inbox loop results, in order. -/
theorem process_email_main_eq_map (procf : String → JobResult) :
    ∀ urls : List String, process_email_main procf urls = urls.map procf
  | [] => rfl
  | u :: rest => by
      simp [process_email_main, process_email_main_eq_map procf rest]

/-- The episode-source candidate loop stops at the first success. -/
theorem episodeTryLoop_first_success (tryf : String → TryOutcome)
    (firstUrl u : String) (suf : List String) :
    ∀ (pre : List String) (lastError : Option String),
      (∀ v ∈ pre, (tryf v).isSuccess = false) →
      (tryf u).isSuccess = true →
      episodeTryLoop tryf firstUrl (pre ++ u :: suf) lastError =
        (tryResultFor u (tryf u), pre ++ [u])
  | [], lastError, _, hu => by
      simp [episodeTryLoop, tryResultFor_success, hu]
  | v :: pre, lastError, hpre, hu => by
      have hv : (tryf v).isSuccess = false := hpre v (by simp)
      have ih := episodeTryLoop_first_success tryf firstUrl u suf pre
        (tryResultFor v (tryf v)).error
        (fun x hx => hpre x (by simp [hx])) hu
      simp [episodeTryLoop, tryResultFor_success, hv, ih]

def c7UrlA : String := "https://a.example/1.mp3"

def c7UrlB : String := "https://b.example/2.mp3"

/-- A processor for which every candidate succeeds. -/
def c7Proc : String → JobResult :=
  fun u => ⟨u, true, none, none, none, none, none, none⟩

/-- C7 counterexample: in the regular-inbox loop
(`EmailerService._process_email`), processing does not stop at the first
success — after the first candidate succeeds, the second candidate is
still processed and a result is produced for it as well. -/
theorem C7_counterexample_main_loop_processes_all :
    (c7Proc c7UrlA).success = true ∧
    process_email_main c7Proc [c7UrlA, c7UrlB] =
      [c7Proc c7UrlA, c7Proc c7UrlB] ∧
    (process_email_main c7Proc [c7UrlA, c7UrlB]).length = 2 :=
  ⟨rfl, rfl, rfl⟩

/-- C7 (amended): for episode-source messages
(`EpisodeSourceProcessor.process_email`) the candidates are tried
strictly in order, a failing candidate falls through to the next,
processing stops at the first success, and the reported `url` is the
succeeding candidate; for regular-inbox messages
(`EmailerService._process_email`) every candidate is processed in order,
one result per candidate, regardless of earlier successes. -/
theorem C7_candidate_order (tryf : String → TryOutcome)
    (procf : String → JobResult) (pre suf : List String) (u : String)
    (hpre : ∀ v ∈ pre, (tryf v).isSuccess = false)
    (hu : (tryf u).isSuccess = true) :
    process_email_es tryf (pre ++ u :: suf) =
      (tryResultFor u (tryf u), pre ++ [u]) ∧
    (process_email_es tryf (pre ++ u :: suf)).1.url = u ∧
    process_email_main procf (pre ++ u :: suf) =
      (pre ++ u :: suf).map procf := by
  have hes : process_email_es tryf (pre ++ u :: suf) =
      (tryResultFor u (tryf u), pre ++ [u]) := by
    cases pre with
    | nil =>
        simpa using
          episodeTryLoop_first_success tryf u u suf [] none (by simp) hu
    | cons p pre =>
        simpa [process_email_es] using
          episodeTryLoop_first_success tryf p u suf (p :: pre) none hpre hu
  refine ⟨hes, ?_, process_email_main_eq_map procf _⟩
  rw [hes]
  cases h : tryf u <;> rfl

/-- An environment where the first candidate fails extraction and the
second succeeds. -/
def c7TryFn : String → TryOutcome :=
  fun u =>
    if u = "https://b.example/2.mp3" then
      .succeeds (some "T") none none none none
    else .fails (some "extraction failed")

/-- Witness for C7 (amended): two candidates, the first fails, the
second succeeds; the reported url is the second. -/
theorem C7_candidate_order_witness :
    process_email_es c7TryFn [c7UrlA, c7UrlB] =
      (⟨c7UrlB, true, some "T", none, none, none, none, none⟩,
       [c7UrlA, c7UrlB]) ∧
    (process_email_es c7TryFn [c7UrlA, c7UrlB]).1.url = c7UrlB ∧
    process_email_main (fun v => tryResultFor v (c7TryFn v))
        [c7UrlA, c7UrlB] =
      [c7UrlA, c7UrlB].map (fun v => tryResultFor v (c7TryFn v)) :=
  C7_candidate_order c7TryFn (fun v => tryResultFor v (c7TryFn v))
    [c7UrlA] [] c7UrlB (by decide) (by decide)

/-- Membership in the first-occurrence deduplication. -/
theorem mem_dedupFirstAux (u : String) :
    ∀ (l seen : List String), u ∈ dedupFirstAux l seen ↔ u ∈ l ∧ u ∉ seen
  | [], seen => by simp [dedupFirstAux]
  | x :: xs, seen => by
      simp only [dedupFirstAux]
      by_cases hx : x ∈ seen
      · rw [if_pos hx, mem_dedupFirstAux u xs seen]
        constructor
        · rintro ⟨h1, h2⟩
          exact ⟨List.mem_cons_of_mem x h1, h2⟩
        · rintro ⟨h1, h2⟩
          rcases List.mem_cons.mp h1 with rfl | h1
          · exact absurd hx h2
          · exact ⟨h1, h2⟩
      · rw [if_neg hx, List.mem_cons, mem_dedupFirstAux u xs (x :: seen)]
        constructor
        · rintro (rfl | ⟨h1, h2⟩)
          · exact ⟨List.mem_cons_self u xs, hx⟩
          · refine ⟨List.mem_cons_of_mem x h1, fun hu => h2 ?_⟩
            exact List.mem_cons_of_mem x hu
        · rintro ⟨h1, h2⟩
          by_cases hux : u = x
          · exact Or.inl hux
          · rcases List.mem_cons.mp h1 with rfl | h1
            · exact Or.inl rfl
            · refine Or.inr ⟨h1, fun hu => ?_⟩
              rcases List.mem_cons.mp hu with rfl | hu
              · exact hux rfl
              · exact h2 hu

/-- The first-occurrence deduplication has no duplicates. -/
theorem nodup_dedupFirstAux :
    ∀ (l seen : List String), (dedupFirstAux l seen).Nodup
  | [], _ => List.nodup_nil
  | x :: xs, seen => by
      simp only [dedupFirstAux]
      by_cases hx : x ∈ seen
      · rw [if_pos hx]
        exact nodup_dedupFirstAux xs seen
      · rw [if_neg hx]
        refine List.Nodup.cons ?_ (nodup_dedupFirstAux xs (x :: seen))
        intro hmem
        rw [mem_dedupFirstAux] at hmem
        exact hmem.2 (List.mem_cons_self x seen)

theorem mem_dedupFirst (u : String) (l : List String) :
    u ∈ dedupFirst l ↔ u ∈ l := by
  unfold dedupFirst
  rw [mem_dedupFirstAux]
  simp

theorem nodup_dedupFirst (l : List String) : (dedupFirst l).Nodup :=
  nodup_dedupFirstAux l []

def c8UrlA : String := "https://a.example/a.mp3"

def c8UrlB : String := "https://b.example/b.mp3"

/-- C8 counterexample: `extract_urls` collects its matches in a Python
`set` and returns `list(urls)`, whose iteration order the language does
not specify; the reversed order of two matches is an admissible output
of the plain-text scan, and then the candidate list handed to processing
is not in the order in which the URLs were first encountered. -/
theorem C8_counterexample_order_not_preserved :
    extractUrlsAdmissible [c8UrlA, c8UrlB] [c8UrlB, c8UrlA] ∧
    candidateList [c8UrlB, c8UrlA] [] ≠ dedupFirst [c8UrlA, c8UrlB] := by
  constructor
  · show List.Perm [c8UrlB, c8UrlA] (dedupFirst [c8UrlA, c8UrlB])
    have h : dedupFirst [c8UrlA, c8UrlB] = [c8UrlA, c8UrlB] := by decide
    rw [h]
    exact List.Perm.swap c8UrlA c8UrlB []
  · decide

/-- C8 (amended): the candidate list handed to processing contains no
duplicates and consists exactly of the URLs matched by the plain-text
and HTML scans; it preserves the first-occurrence order of the
concatenated per-scan outputs, but the order within each scan's output
is unspecified (each scan collects matches into a Python set), so the
extraction-encounter order is not what is preserved. -/
theorem C8_candidate_list_dedup (mT mH outT outH : List String)
    (hT : extractUrlsAdmissible mT outT)
    (hH : extractUrlsAdmissible mH outH) :
    (candidateList outT outH).Nodup ∧
    candidateList outT outH = dedupFirst (outT ++ outH) ∧
    (∀ u, u ∈ candidateList outT outH ↔ u ∈ mT ++ mH) := by
  refine ⟨nodup_dedupFirst _, rfl, ?_⟩
  intro u
  unfold candidateList
  rw [mem_dedupFirst, List.mem_append, List.mem_append, hT.mem_iff,
    hH.mem_iff, mem_dedupFirst, mem_dedupFirst]

/-- Witness for C8 (amended), at the admissible reversed text-scan
output. -/
theorem C8_candidate_list_dedup_witness :
    (candidateList [c8UrlB, c8UrlA] []).Nodup ∧
    (c8UrlA ∈ candidateList [c8UrlB, c8UrlA] [] ↔
      c8UrlA ∈ [c8UrlA, c8UrlB] ++ []) :=
  ⟨(C8_candidate_list_dedup [c8UrlA, c8UrlB] [] [c8UrlB, c8UrlA] []
      (by
        show List.Perm [c8UrlB, c8UrlA] (dedupFirst [c8UrlA, c8UrlB])
        have h : dedupFirst [c8UrlA, c8UrlB] = [c8UrlA, c8UrlB] := by decide
        rw [h]
        exact List.Perm.swap c8UrlA c8UrlB [])
      (List.Perm.refl [])).1,
   (C8_candidate_list_dedup [c8UrlA, c8UrlB] [] [c8UrlB, c8UrlA] []
      (by
        show List.Perm [c8UrlB, c8UrlA] (dedupFirst [c8UrlA, c8UrlB])
        have h : dedupFirst [c8UrlA, c8UrlB] = [c8UrlA, c8UrlB] := by decide
        rw [h]
        exact List.Perm.swap c8UrlA c8UrlB [])
      (List.Perm.refl [])).2.2 c8UrlA⟩

/-- A status poll that keeps the loop going: a successful check whose
status is still `pending`, `processing` or `queued`. -/
def inProgressPoll (r : TResultM) : Prop :=
  r.success = true ∧
    (r.status = some "pending" ∨ r.status = some "processing" ∨
      r.status = some "queued")

/-- While every poll reports an in-progress status, the loop ends in the
timeout result. -/
theorem waitLoop_times_out (check : Nat → TResultM) (jid : String)
    (interval maxWait : Nat) (hprog : ∀ n, inProgressPoll (check n)) :
    ∀ (fuel elapsed polls : Nat),
      (waitLoop check jid interval maxWait fuel elapsed polls).1 =
        timeoutResult jid maxWait
  | 0, _, _ => rfl
  | fuel + 1, elapsed, polls => by
      obtain ⟨hs, hst⟩ := hprog polls
      by_cases he : elapsed < maxWait
      · have hred : waitLoop check jid interval maxWait (fuel + 1)
            elapsed polls =
            waitLoop check jid interval maxWait fuel (elapsed + interval)
              (polls + 1) := by
          rcases hst with h | h | h <;> simp [waitLoop, he, hs, h]
        rw [hred]
        exact waitLoop_times_out check jid interval maxWait hprog fuel _ _
      · simp [waitLoop, he]

/-- C9 (amended): when every poll keeps reporting an in-progress status,
`wait_for_completion` returns a failure (not a crash) whose
timeout-specific message names the configured maximum wait — but not the
elapsed time or the poll count — and a `process_url` run receiving that
result marks the Job `failed` with exactly that message. The
`1 ≤ poll_interval` hypothesis keeps the model inside the regime where
the source loop terminates at all. -/
theorem C9_timeout_yields_failed_job (check : Nat → TResultM)
    (jid : String) (interval maxWait : Nat) (_hi : 1 ≤ interval)
    (hprog : ∀ n, inProgressPoll (check n)) :
    (wait_for_completion check jid interval maxWait).1 =
      timeoutResult jid maxWait ∧
    (timeoutResult jid maxWait).success = false ∧
    (timeoutResult jid maxWait).error =
      some (timeoutMsg jid maxWait) ∧
    (∀ (md5hex12 : String → String) (table : List JobRecord)
        (url : String) (info : URLInfo),
      parse_url md5hex12 url = .ok info →
      table.find? (fun r => r.source_url == url) = none →
      process_url md5hex12 ⟨.ok, .ok, timeoutResult jid maxWait⟩ table url =
        (⟨false, some info.id, some (timeoutMsg jid maxWait)⟩,
         [.insert ⟨info.id, url, info.source_type, .pending, 0, none⟩,
          .updStatus info.id .downloading 10, .updMetadata info.id,
          .updStatus info.id .transcribing 50,
          .markFailed info.id (timeoutMsg jid maxWait)])) := by
  refine ⟨waitLoop_times_out check jid interval maxWait hprog _ 0 0,
    rfl, rfl, ?_⟩
  intro md5hex12 table url info hp hf
  unfold process_url
  rw [hp, hf]
  rfl

/-- A transcriber whose job stays queued forever. -/
def c9Check : Nat → TResultM :=
  fun _ => ⟨true, some "j", some "queued", false, none⟩

/-- C9 counterexample: with `poll_interval = 7` and `max_wait = 10` and a
job that never leaves `queued`, the loop stops after 2 polls with the
elapsed counter at 14 seconds, but the timeout message mentions neither
the elapsed time (14) nor the poll count (2) — only the configured
maximum wait. -/
theorem C9_counterexample_message_content :
    wait_for_completion c9Check "j" 7 10 =
      (⟨false, some "j", none, false,
        some "Job j did not complete within 10 seconds"⟩, 14, 2) ∧
    pySubstr "14" "Job j did not complete within 10 seconds" = false ∧
    pySubstr "2" "Job j did not complete within 10 seconds" = false :=
  ⟨rfl, by decide, by decide⟩

/-- Witness for C9 (amended) with the poll defaults of the source. -/
theorem C9_timeout_yields_failed_job_witness :
    (wait_for_completion c9Check "j" 5 600).1 = timeoutResult "j" 600 ∧
    process_url (fun _ => "0123456789ab")
        ⟨.ok, .ok, timeoutResult "j" 600⟩ []
        "https://youtu.be/dQw4w9WgXcQ" =
      (⟨false, some "youtube_dQw4w9WgXcQ", some (timeoutMsg "j" 600)⟩,
       [.insert ⟨"youtube_dQw4w9WgXcQ", "https://youtu.be/dQw4w9WgXcQ",
          SourceType.youtube, .pending, 0, none⟩,
        .updStatus "youtube_dQw4w9WgXcQ" .downloading 10,
        .updMetadata "youtube_dQw4w9WgXcQ",
        .updStatus "youtube_dQw4w9WgXcQ" .transcribing 50,
        .markFailed "youtube_dQw4w9WgXcQ" (timeoutMsg "j" 600)]) :=
  ⟨(C9_timeout_yields_failed_job c9Check "j" 5 600 (by decide)
      (fun _ => ⟨rfl, Or.inr (Or.inr rfl)⟩)).1,
   (C9_timeout_yields_failed_job c9Check "j" 5 600 (by decide)
      (fun _ => ⟨rfl, Or.inr (Or.inr rfl)⟩)).2.2.2
    (fun _ => "0123456789ab") [] "https://youtu.be/dQw4w9WgXcQ"
    ⟨SourceType.youtube, "https://youtu.be/dQw4w9WgXcQ",
     "youtube_dQw4w9WgXcQ"⟩ rfl rfl⟩

end Scribe
